import Mathlib

/-!
Verification development for the oidc-sogo-demo core: the token-lifecycle
manager (`tokenService.js`), the discovery pre-deploy protocol
(`StalwartService`), the mailbox deletion paths (`StalwartService`,
`MailcowService`), and the expiration-reconciliation daemon
(`demo-session-cleanup-daemon.js`).

The JavaScript source is shallowly embedded: every network or database call
is an explicit oracle argument (a function supplied to the embedded
operation), promise rejection / thrown exceptions are `Except`, JS `null` /
`undefined` is `Option`, and JS truthiness on strings is the test against
the empty string.  Each embedded operation additionally returns the list of
backend calls it issued, so ordering and counting properties are about an
explicit trace.
-/

namespace OidcSogoDemo

/-! ### JS `parseInt(s, 10)` and the daemon configuration

`demo-session-cleanup-daemon.js` constructor:
`this.maxSessionDurationMin = parseInt(process.env.DEMO_MAX_SESSION_DURATION_MIN or else "15", base 10)`
and `shouldRun() { return this.maxSessionDurationMin > 0; }`.

`parseIntBase10` models JS `parseInt(s, 10)`: skip leading whitespace, an
optional sign, then the longest prefix of decimal digits; `none` models the
`NaN` result when no digit is found.  (`NaN > 0` is `false` in JS.)
-/

def isJsSpace (c : Char) : Bool :=
  c = ' ' || c = '\t' || c = '\n' || c = '\r' || c = '\x0b' || c = '\x0c'

def digitsToNat (ds : List Char) : Nat :=
  ds.foldl (fun acc c => 10 * acc + (c.toNat - 48)) 0

def parseIntBase10 (s : String) : Option Int :=
  let cs := s.data.dropWhile isJsSpace
  let signAndRest : Int × List Char :=
    match cs with
    | '-' :: t => (-1, t)
    | '+' :: t => (1, t)
    | t => (1, t)
  let ds := signAndRest.2.takeWhile Char.isDigit
  if ds.isEmpty then none
  else some (signAndRest.1 * (digitsToNat ds : Int))

/-- `process.env.DEMO_MAX_SESSION_DURATION_MIN` or else `"15"`: `undefined` and the
empty string are falsy and fall back to the default `"15"`. -/
def maxSessionDurationMinOf (env : Option String) : Option Int :=
  parseIntBase10 (match env with
    | none => "15"
    | some s => if s = "" then "15" else s)

/-- `DemoSessionCleanupDaemon.shouldRun`: `this.maxSessionDurationMin > 0`
(with `NaN > 0 = false`). -/
def shouldRunOf (env : Option String) : Bool :=
  match maxSessionDurationMinOf env with
  | none => false
  | some n => n > 0

/-! ### Substring matching (JS `String.prototype.includes`) -/

def charsPrefixOf : List Char → List Char → Bool
  | [], _ => true
  | _ :: _, [] => false
  | c :: n, d :: h => c = d && charsPrefixOf n h

def charsSub (needle : List Char) : List Char → Bool
  | [] => needle.isEmpty
  | d :: h => charsPrefixOf needle (d :: h) || charsSub needle h

/-- `a.includes(b)` on JS strings. -/
def strContains (hay needle : String) : Bool :=
  charsSub needle.data hay.data

/-! ### Expiration reconciler daemon (`demo-session-cleanup-daemon.js`)

An identity as the daemon reads it from the IdP (`kcUser`).  `email` is
`Option` because the Keycloak record may lack one (`kcUser.email ||
fallback` in the source); `createdTimestamp` is `Option` because the guard
`if (!createdTimestamp)` treats a missing value (and `0`, which is falsy)
as not expirable.
-/

structure KcUser where
  id : String
  username : String
  email : Option String
  enabled : Bool
  createdTimestamp : Option Int
deriving Repr, DecidableEq

/-- `kcUser.email || username + "@" + DEMO_INTERNAL_EMAIL_DOMAIN` (the
empty string is falsy). -/
def emailOf (domain : String) (u : KcUser) : String :=
  match u.email with
  | some e => if e = "" then u.username ++ "@" ++ domain else e
  | none => u.username ++ "@" ++ domain

/-- The `await sogoUserService.userExists(userEmail)` call of the daemon
(line 405).  `SogoUserService` (sogo-user-service.js) defines
`userExistsInSogo` but no method named `userExists`, and nothing else
assigns one, so the member lookup yields `undefined` and the call site
throws `TypeError: sogoUserService.userExists is not a function` —
whatever the database holds, the call never yields a boolean.  (The
analogous `RoundcubeUserService` does define `userExists`, which is the
intended check this call was adapted from.) -/
def sogoUserExistsCall (_userEmail : String) : Except String Bool :=
  .error "sogoUserService.userExists is not a function"

/-- `DemoSessionCleanupDaemon.shouldExpireUser(kcUser, force)`.

The existence check is the always-throwing `sogoUserExistsCall`; the
`.error` lands in the catch at lines 407-411, which returns `false`.  The
source compares `ageMinutes = (now - createdDate) / (1000 * 60)` against
`maxSessionDurationMin`; dividing by the positive constant `60000`
preserves the strict order, so the comparison is encoded integrally as
`now - created > maxSessionDurationMin * 60000`. -/
def shouldExpireUser (maxSessionDurationMin : Int) (now : Int) (domain : String)
    (kcUser : KcUser) (force : Bool) : Bool :=
  if force then true
  else
    match kcUser.createdTimestamp with
    | none => false
    | some created =>
      if created = 0 then false  -- `if (!createdTimestamp)`: 0 is falsy
      else
        let isOldEnough : Bool := decide (now - created > maxSessionDurationMin * 60000)
        match sogoUserExistsCall (emailOf domain kcUser) with
        | .error _ => false
        | .ok existsInWebmail => existsInWebmail && isOldEnough

/-- The per-identity decision of a non-forced `tick()`: disabled users are
skipped (`if (kcUser.enabled === false) continue`), all others go through
`shouldExpireUser(fullUser)` (the full-detail fetch returns the same
logical identity, so it is the same record here); `deleteUser` is invoked
exactly when this is `true`. -/
def tickAttemptsDelete (maxSessionDurationMin : Int) (now : Int) (domain : String)
    (u : KcUser) : Bool :=
  if u.enabled = false then false
  else shouldExpireUser maxSessionDurationMin now domain u false

/-- The parsed body of a `deleteStalwartMailboxViaAPI` response (`success`,
optional `message`, optional `error`). -/
structure ApiResult where
  success : Bool
  message : Option String
  error : Option String
deriving Repr, DecidableEq

structure StepResult where
  success : Bool
  error : Option String
deriving Repr, DecidableEq

/-- `sogoUserService.deleteUser` result: `{success, deleted?, message?}` or
`{success:false, error}`. -/
structure SogoDeleteResult where
  success : Bool
  deleted : Option Bool
  message : Option String
  error : Option String
deriving Repr, DecidableEq

/-- One backend call issued by `deleteUser`, in issue order. -/
inductive BackendCall where
  | stalwartDelete (identifier : String)
  | keycloakDelete (userId : String)
  | sogoDelete (identifier : String)
deriving Repr, DecidableEq

structure DeleteUserResults where
  keycloak : Option StepResult
  stalwart : Option ApiResult
  webmail : Option SogoDeleteResult
deriving Repr, DecidableEq

structure DeleteUserOutcome where
  success : Bool
  results : DeleteUserResults
  message : String
deriving Repr, DecidableEq

/-- The overall-success expression of `deleteUser`:
`results.keycloak?.success && (results.stalwart === null ||
results.stalwart?.success) && (results.webmail?.success !== false)`.
A missing `keycloak` is falsy; `webmail?.success !== false` only fails when
the webmail result is present with `success` exactly `false`. -/
def deleteUserAllSuccess (r : DeleteUserResults) : Bool :=
  (match r.keycloak with | some k => k.success | none => false) &&
  (match r.stalwart with | none => true | some s => s.success) &&
  (match r.webmail with | none => true | some w => w.success)

/-- Step 1 of `deleteUser`: the Stalwart deletion, first with the username;
if that call resolves with `success:false`, one fallback call with the
email.  A rejected promise (`.error`) jumps to the surrounding catch, which
records the failure without attempting the email fallback. -/
def stalwartStep (stalwartApiDelete : String → Except String ApiResult)
    (username email : String) : ApiResult × List BackendCall :=
  match stalwartApiDelete username with
  | .error e =>
      ({ success := false, message := none, error := some e },
       [.stalwartDelete username])
  | .ok apiResult =>
      if apiResult.success then (apiResult, [.stalwartDelete username])
      else
        match stalwartApiDelete email with
        | .error e =>
            ({ success := false, message := none, error := some e },
             [.stalwartDelete username, .stalwartDelete email])
        | .ok emailResult =>
            (emailResult, [.stalwartDelete username, .stalwartDelete email])

/-- Step 3 of `deleteUser`: the SOGo deletion.  After
`results.webmail = sogoResult` the source evaluates `SOGoResult.success`
(line 518), but the variable bound in scope is `sogoResult`: `SOGoResult`
is an unbound identifier, so its evaluation raises a ReferenceError before
that branch — including the username retry nested in its else-arm — can
run, and the enclosing catch overwrites `results.webmail` with
`{success:false, error:"SOGoResult is not defined"}`.  Consequently exactly
one SOGo call is issued and the recorded webmail result is always a
failure, whatever `sogoDelete` returned. -/
def sogoStep (sogoDelete : String → Except String SogoDeleteResult)
    (email : String) : SogoDeleteResult × List BackendCall :=
  match sogoDelete email with
  | .error e =>
      ({ success := false, deleted := none, message := none, error := some e },
       [.sogoDelete email])
  | .ok _sogoResult =>
      ({ success := false, deleted := none, message := none,
         error := some "SOGoResult is not defined" },
       [.sogoDelete email])

/-- `DemoSessionCleanupDaemon.deleteUser(kcUser)`.  `provider` is
`mailService.getProvider()`; the Stalwart step runs only when it is
`"stalwart"`.  The second component is the ordered list of backend calls
issued. -/
def deleteUser (provider : String) (domain : String) (kcUser : KcUser)
    (stalwartApiDelete : String → Except String ApiResult)
    (keycloakDelete : String → Except String Unit)
    (sogoDelete : String → Except String SogoDeleteResult) :
    DeleteUserOutcome × List BackendCall :=
  let username := kcUser.username
  let email := emailOf domain kcUser
  let st : Option ApiResult × List BackendCall :=
    if provider = "stalwart" then
      let s := stalwartStep stalwartApiDelete username email
      (some s.1, s.2)
    else (none, [])
  let kc : StepResult :=
    match keycloakDelete kcUser.id with
    | .ok _ => { success := true, error := none }
    | .error e => { success := false, error := some e }
  let sg := sogoStep sogoDelete email
  let results : DeleteUserResults :=
    { keycloak := some kc, stalwart := st.1, webmail := some sg.1 }
  let allSuccess := deleteUserAllSuccess results
  ({ success := allSuccess, results := results,
     message := if allSuccess then "User deleted successfully from all systems"
       else "User deletion completed with some errors (check details)" },
   st.2 ++ [.keycloakDelete kcUser.id] ++ sg.2)

/-! ### Token lifecycle manager (`tokenService.js`)

State: `session.tokenService` (access/ID tokens per identity) and the
process-wide encrypted refresh-token map, both as association lists.
`decodeExp` models `_decodeToken(token).exp` (claims read without
verification; `none` for an undecodable token or a missing claim);
`decryptRT`/`encryptRT` model `_decryptRefreshToken`/`_encryptRefreshToken`
(`none` for their `null` results); `refreshGrant` models the network call
`_refreshAccessToken` (`none` when the refresh-grant call fails, in which
case the source returns `null`).
-/

structure SessionEntry where
  accessToken : String
  idToken : Option String
deriving Repr, DecidableEq

/-- What `_refreshAccessToken` hands back on success: `access_token`
(possibly absent, modeled as `""` since the caller tests its truthiness),
`refresh_token || <old>`, and the optional `id_token`. -/
structure RefreshedTokens where
  accessToken : String
  refreshToken : String
  idToken : Option String
deriving Repr, DecidableEq

inductive NetCall where
  | refreshGrant (refreshToken : String)
deriving Repr, DecidableEq

structure TokenState where
  session : List (String × SessionEntry)
  refreshStore : List (String × String)
deriving Repr, DecidableEq

def setAssoc {α : Type} (l : List (String × α)) (k : String) (v : α) :
    List (String × α) :=
  match l with
  | [] => [(k, v)]
  | (k2, v2) :: t => if k2 = k then (k, v) :: t else (k2, v2) :: setAssoc t k v

/-- `TokenService._isAccessTokenValid`: the token must be truthy and
decodable with a truthy `exp`, and `exp - now` must strictly exceed
`minValiditySeconds = 60`. -/
def isAccessTokenValid (decodeExp : String → Option Int) (now : Int)
    (accessToken : String) : Bool :=
  if accessToken = "" then false
  else
    match decodeExp accessToken with
    | none => false
    | some exp =>
      if exp = 0 then false  -- `!decoded.exp`: 0 is falsy
      else decide (exp - now > 60)

structure TokenQueryOutcome where
  token : Option String
  state : TokenState
  calls : List NetCall
deriving Repr, DecidableEq

/-- `TokenService.getValidAccessToken(username, session)`.  The express
session object itself is assumed present (a null session returns null
before any state is read and is outside this state model).  Every `return
null` of the source is `token := none`; the state is returned unchanged on
all of those paths, and `calls` records each refresh-grant network call. -/
def getValidAccessToken (decodeExp : String → Option Int) (now : Int)
    (decryptRT : String → Option String)
    (encryptRT : String → Option String)
    (refreshGrant : String → Option RefreshedTokens)
    (username : String) (st : TokenState) : TokenQueryOutcome :=
  if username = "" then ⟨none, st, []⟩
  else
    match st.session.lookup username with
    | none => ⟨none, st, []⟩
    | some entry =>
      if entry.accessToken = "" then ⟨none, st, []⟩
      else if isAccessTokenValid decodeExp now entry.accessToken then
        ⟨some entry.accessToken, st, []⟩
      else
        match st.refreshStore.lookup username with
        | none => ⟨none, st, []⟩
        | some encryptedRefreshToken =>
          match decryptRT encryptedRefreshToken with
          | none => ⟨none, st, []⟩
          | some refreshToken =>
            match refreshGrant refreshToken with
            | none => ⟨none, st, [.refreshGrant refreshToken]⟩
            | some newTokens =>
              if newTokens.accessToken = "" then
                ⟨none, st, [.refreshGrant refreshToken]⟩
              else
                let entry2 : SessionEntry :=
                  { accessToken := newTokens.accessToken,
                    idToken :=
                      match newTokens.idToken with
                      | some idt => if idt = "" then entry.idToken else some idt
                      | none => entry.idToken }
                let session2 := setAssoc st.session username entry2
                let store2 :=
                  if newTokens.refreshToken ≠ "" ∧ newTokens.refreshToken ≠ refreshToken then
                    match encryptRT newTokens.refreshToken with
                    | some enc => setAssoc st.refreshStore username enc
                    | none => st.refreshStore
                  else st.refreshStore
                ⟨some newTokens.accessToken, ⟨session2, store2⟩,
                 [.refreshGrant refreshToken]⟩

/-! ### Refresh-token encryption (`_encryptRefreshToken` / `_decryptRefreshToken`)

The stored value is the string `iv:authTag:ciphertext` with each component
hex-encoded.  Plaintexts are byte lists (the UTF-8 bytes of the refresh
token; the `utf8` and `hex` conversions of the source are exact on valid strings).
The AES-256-GCM primitive from the node `crypto` library is external to the
repository, so the embedding is parametric in an authenticated cipher
`enc`/`dec` (key, iv, message ↦ ciphertext and auth tag; decryption with
key, iv, ciphertext, tag), constrained in the theorems by exactly its
contract: decryption inverts encryption, and decryption succeeds only on a
genuine encryption (a failed GCM authentication makes `decipher.final`
throw, which the source catches and turns into `null`).  Hex decoding on
the way in models the lenient node semantics of `Buffer.from(s, "hex")`
and of `decipher.update(s, "hex", ...)`: case-insensitive, consuming two
characters per byte, truncating without error at the first invalid pair
and dropping a lone trailing digit.
-/

def hexDigitChar (n : Nat) : Char :=
  if n = 0 then '0' else if n = 1 then '1' else if n = 2 then '2'
  else if n = 3 then '3' else if n = 4 then '4' else if n = 5 then '5'
  else if n = 6 then '6' else if n = 7 then '7' else if n = 8 then '8'
  else if n = 9 then '9' else if n = 10 then 'a' else if n = 11 then 'b'
  else if n = 12 then 'c' else if n = 13 then 'd' else if n = 14 then 'e'
  else 'f'

/-- The value of a hex digit, case-insensitively (node hex decoding
accepts `0-9`, `a-f` and `A-F`): the unique `n < 16` with
`hexDigitChar n = Char.toLower c`, or `none` for a character that is not a
hex digit. -/
def hexValOfCI (c : Char) : Option Nat :=
  (List.range 16).find? (fun n => hexDigitChar n = Char.toLower c)

def byteToHexChars (b : Nat) : List Char :=
  [hexDigitChar (b / 16 % 16), hexDigitChar (b % 16)]

def bytesToHexChars : List Nat → List Char
  | [] => []
  | b :: bs => byteToHexChars b ++ bytesToHexChars bs

def bytesToHex (bs : List Nat) : String :=
  String.mk (bytesToHexChars bs)

/-- Node hex decoding (`Buffer.from(s, "hex")` and the hex input encoding
of `decipher.update`): total, case-insensitive, two characters per byte,
stopping silently at the first pair containing a non-hex character, and
dropping a lone trailing digit. -/
def hexBytesNode : List Char → List Nat
  | [] => []
  | [_] => []
  | c1 :: c2 :: rest =>
    match hexValOfCI c1, hexValOfCI c2 with
    | some h, some l => (16 * h + l) :: hexBytesNode rest
    | _, _ => []

/-- JS `s.split(':')` on the character list of `s`. -/
def splitColon : List Char → List (List Char)
  | [] => [[]]
  | c :: rest =>
    if c = ':' then [] :: splitColon rest
    else
      match splitColon rest with
      | h :: t => (c :: h) :: t
      | [] => [[c]]

/-- `TokenService._encryptRefreshToken`: a falsy (empty) plaintext returns
`null` before any cipher work; otherwise the result is
`iv.toString(hex) + ":" + authTag.toString(hex) + ":" + encrypted`. -/
def encryptRefreshToken (enc : Nat → List Nat → List Nat → List Nat × List Nat)
    (key : Nat) (iv : List Nat) (msg : List Nat) : Option String :=
  if msg = [] then none
  else
    let ct := (enc key iv msg).1
    let tag := (enc key iv msg).2
    some (bytesToHex iv ++ ":" ++ bytesToHex tag ++ ":" ++ bytesToHex ct)

/-- `TokenService._decryptRefreshToken`: falsy input returns `null`; a
split with other than three parts throws (caught, `null`); otherwise the
three fields are hex-decoded with the lenient node semantics (never
throwing) and handed to the authenticated decryption, whose failure —
including `createDecipheriv` rejecting a bad IV and `decipher.final`
rejecting a bad auth tag — ends at the catch and returns `null`. -/
def decryptRefreshToken (dec : Nat → List Nat → List Nat → List Nat → Option (List Nat))
    (key : Nat) (s : String) : Option (List Nat) :=
  if s = "" then none
  else
    match splitColon s.data with
    | [a, b, c] => dec key (hexBytesNode a) (hexBytesNode c) (hexBytesNode b)
    | _ => none

/-- A toy authenticated cipher used to instantiate the cipher-parametric
theorems: the ciphertext is the message and the tag is a fixed one-byte
value, which satisfies both the inversion law and the
authenticity law. -/
def encTrivial (_key : Nat) (_iv : List Nat) (msg : List Nat) : List Nat × List Nat :=
  (msg, [7])

def decTrivial (_key : Nat) (_iv : List Nat) (ct : List Nat) (tag : List Nat) :
    Option (List Nat) :=
  if tag = [7] then some ct else none

/-! ### Discovery pre-deploy protocol
(`StalwartService.preDeployOidcUserWithAdminToken`)

Oracles: `userInfoReq` and `tokenReq` are the two Keycloak HTTP calls
(status and the relevant body field, with `""` for an absent field;
`.error` is a thrown network error caught by the outer catch), `handshake`
is `transporter.verify()`, `verifyMailbox` is
`StalwartService.verifyMailboxExists` (which never throws: it catches
internally and reports `{exists:false, error}`), and `createPrincipalReq`
is `stalwartClient.createPrincipal`.  The second component of the result
is the ordered trace of protocol steps.
-/

/-- The handshake failure classes of the source, by `message.includes`:
connection refused / timeout (fatal, short-circuits). -/
def connRefusedClass (msg : String) : Bool :=
  strContains msg "Greeting never received" || strContains msg "ECONNREFUSED" ||
  strContains msg "ETIMEDOUT" || strContains msg "ENOTFOUND" ||
  strContains msg "timeout"

/-- TLS-negotiation failure class (non-fatal: discovery may still have
happened). -/
def tlsClass (msg : String) : Bool :=
  strContains msg "TLS" || strContains msg "handshake" || strContains msg "eof"

/-- Credential-rejected failure class (non-fatal: the token may still have
been introspected). -/
def credRejectedClass (msg : String) : Bool :=
  strContains msg "535" || strContains msg "Authentication credentials invalid"

inductive PreDeployEv where
  | userInfoFetch
  | tokenRequest
  | handshakeAttempt
  | waitDelay
  | verifyLookup (identifier : String)
  | createPrincipalCall (name : String)
deriving Repr, DecidableEq

structure VerifyRes where
  mbExists : Bool
  err : Option String
deriving Repr, DecidableEq

structure PreDeployResult where
  success : Bool
  discovered : Bool
  connectionError : Bool
  message : String
  error : Option String
  authSucceeded : Option Bool
  authError : Option String
deriving Repr, DecidableEq

/-- JS `a || b` over possibly-missing strings (both `undefined` and `""`
are falsy). -/
def jsOrStr (a b : Option String) : Option String :=
  match a with
  | some s => if s = "" then b else some s
  | none => b

def preDeployFail (msg : String) (err : Option String) : PreDeployResult :=
  { success := false, discovered := false, connectionError := false,
    message := msg, error := err, authSucceeded := none, authError := none }

def emailLocalPart (email : String) : String :=
  String.mk (email.data.takeWhile (fun c => ¬ (c = '@')))

/-- Steps 4–5 (and the explicit-creation fallback) of
`preDeployOidcUserWithAdminToken`: the fixed 5s delay, the verification
poll by email with a same-value retry under the username, then either the
`Discovered` result, or — when the handshake succeeded — one explicit
`createPrincipal` attempt and a re-verification, else the
`DiscoveryFailed` result. -/
def preDeployVerifyPhase (verifyMailbox : String → VerifyRes)
    (createPrincipalReq : Except String Bool)
    (email keycloakUsername : String)
    (authSucceeded : Bool) (authErrorMsg : Option String) :
    PreDeployResult × List PreDeployEv :=
  let v1 := verifyMailbox email
  let vt : VerifyRes × List PreDeployEv :=
    if v1.mbExists = false ∧ keycloakUsername ≠ "" then
      (verifyMailbox keycloakUsername,
       [.waitDelay, .verifyLookup email, .verifyLookup keycloakUsername])
    else (v1, [.waitDelay, .verifyLookup email])
  let vres := vt.1
  let notDiscovered : PreDeployResult :=
    { success := false, discovered := false, connectionError := false,
      message := if authSucceeded then
          "OAuth authentication succeeded but user principal not found in Stalwart directory"
        else "OAuth authentication failed and user not discovered",
      error := jsOrStr vres.err
        (jsOrStr authErrorMsg (some "User discovery verification failed")),
      authSucceeded := some authSucceeded, authError := authErrorMsg }
  if vres.mbExists then
    ({ success := true, discovered := true, connectionError := false,
       message := if authSucceeded then
           "OIDC user pre-deployed successfully - Stalwart discovered user via OAuth flow"
         else
           "OIDC user discovered despite SMTP auth error - Stalwart cached user via token introspection",
       error := none, authSucceeded := some authSucceeded,
       authError := authErrorMsg }, vt.2)
  else if authSucceeded then
    let localName := emailLocalPart email
    match createPrincipalReq with
    | .error _ => (notDiscovered, vt.2 ++ [.createPrincipalCall localName])
    | .ok created =>
      if created then
        let v3 := verifyMailbox email
        if v3.mbExists then
          ({ success := true, discovered := true, connectionError := false,
             message := "OIDC user authenticated and principal created explicitly",
             error := none, authSucceeded := some authSucceeded,
             authError := authErrorMsg },
           vt.2 ++ [.createPrincipalCall localName, .verifyLookup email])
        else
          (notDiscovered, vt.2 ++ [.createPrincipalCall localName, .verifyLookup email])
      else (notDiscovered, vt.2 ++ [.createPrincipalCall localName])
  else (notDiscovered, vt.2)

/-- `StalwartService.preDeployOidcUserWithAdminToken`. -/
def preDeployOidcUserWithAdminToken
    (configured : Bool) (keycloakUrl realm clientId clientSecret : String)
    (smtpHost : String) (smtpPort : Int)
    (email : String) (userPassword : Option String)
    (userInfoReq : Except String (Int × String))
    (tokenReq : Except String (Int × String))
    (handshake : Except String Unit)
    (verifyMailbox : String → VerifyRes)
    (createPrincipalReq : Except String Bool) :
    PreDeployResult × List PreDeployEv :=
  if configured = false then
    (preDeployFail "Stalwart client not configured" (some "not_configured"), [])
  else if keycloakUrl = "" ∨ realm = "" ∨ clientId = "" ∨ clientSecret = "" then
    (preDeployFail "Keycloak OIDC configuration missing"
      (some "Missing KEYCLOAK_URL, KEYCLOAK_REALM, or Stalwart OIDC client credentials"), [])
  else
    match userInfoReq with
    | .error e => (preDeployFail "OIDC pre-deploy failed" (some e), [.userInfoFetch])
    | .ok uinfo =>
      if uinfo.1 ≠ 200 then
        (preDeployFail "Failed to get user info from Keycloak" none, [.userInfoFetch])
      else if uinfo.2 = "" then
        (preDeployFail "User info missing username"
          (some "Keycloak user object missing username field"), [.userInfoFetch])
      else
        let keycloakUsername := uinfo.2
        if (match userPassword with | none => true | some pw => pw = "") then
          (preDeployFail "User password required for OAuth token acquisition"
            (some "password_required"), [.userInfoFetch])
        else
          match tokenReq with
          | .error e =>
              (preDeployFail "OIDC pre-deploy failed" (some e),
               [.userInfoFetch, .tokenRequest])
          | .ok tok =>
            if ¬ (tok.1 = 200 ∧ tok.2 ≠ "") then
              (preDeployFail "Failed to acquire OAuth token with provided password" none,
               [.userInfoFetch, .tokenRequest])
            else if smtpHost = "" ∨ smtpPort = 0 then
              (preDeployFail "SMTP not configured"
                (some "SMTP host and port must be configured"),
               [.userInfoFetch, .tokenRequest])
            else
              match handshake with
              | .ok _ =>
                let p := preDeployVerifyPhase verifyMailbox createPrincipalReq
                  email keycloakUsername true none
                (p.1, [.userInfoFetch, .tokenRequest, .handshakeAttempt] ++ p.2)
              | .error msg =>
                if connRefusedClass msg then
                  ({ success := false, discovered := false, connectionError := true,
                     message := "SMTP connection failed - cannot reach " ++ smtpHost,
                     error := some msg, authSucceeded := none, authError := none },
                   [.userInfoFetch, .tokenRequest, .handshakeAttempt])
                else
                  let p := preDeployVerifyPhase verifyMailbox createPrincipalReq
                    email keycloakUsername false (some msg)
                  (p.1, [.userInfoFetch, .tokenRequest, .handshakeAttempt] ++ p.2)

/-! ### Mailbox deletion, both variants
(`StalwartService.deleteMailbox`, `MailcowService.deleteMailbox`)

The external REST resources are modeled by their contract (spec §6): a
store of principals (resp. mailboxes), `getPrincipal` answering 200 when a
principal matches the identifier and 404 otherwise, `deletePrincipal`
removing by canonical name (404 when absent), and the mailcow delete
endpoint removing every account matching the posted identifier.
-/

structure Principal where
  name : String
  emails : List String
deriving Repr, DecidableEq

def principalMatches (ident : String) (p : Principal) : Bool :=
  p.name = ident || p.emails.contains ident

structure LookupRes where
  success : Bool
  status : Int
  principal : Option Principal
deriving Repr, DecidableEq

def sgetPrincipal (store : List Principal) (ident : String) : LookupRes :=
  match store.find? (principalMatches ident) with
  | some p => { success := true, status := 200, principal := some p }
  | none => { success := false, status := 404, principal := none }

def sdeletePrincipal (store : List Principal) (name : String) :
    (Bool × Int) × List Principal :=
  if store.any (fun q => q.name = name) then
    ((true, 200), store.filter (fun q => ¬ (q.name = name)))
  else ((false, 404), store)

structure MbRes where
  success : Bool
  message : Option String
  error : Option String
  status : Option Int
deriving Repr, DecidableEq

/-- `StalwartService.deleteMailbox(email)` over the principal store
(configured client assumed; an unconfigured client returns early without
touching the store). -/
def stalwartDeleteMailbox (store : List Principal) (email : String) :
    MbRes × List Principal :=
  let lookup := sgetPrincipal store email
  if lookup.success = false then
    if lookup.status = 404 then
      ({ success := true,
         message := some ("Principal not found (may already be deleted): " ++ email),
         error := none, status := none }, store)
    else
      ({ success := false, message := none,
         error := some "Failed to lookup principal", status := some lookup.status },
       store)
  else
    let principalName :=
      match lookup.principal with
      | some p => if p.name = "" then email else p.name
      | none => email
    let del := sdeletePrincipal store principalName
    if del.1.1 then
      ({ success := true, message := some ("Principal deleted: " ++ principalName),
         error := none, status := none }, del.2)
    else
      ({ success := false, message := none,
         error := some "Principal deletion failed", status := some del.1.2 },
       del.2)

structure Mailbox where
  id : String
  username : String
deriving Repr, DecidableEq

def mgetMailbox (store : List Mailbox) (email : String) : Option Mailbox :=
  store.find? (fun m => m.username = email)

/-- The mailcow `POST /v1/delete/mailbox [id]` endpoint: removes every
account matching the posted identifier and answers 200. -/
def mdeleteMailboxCall (store : List Mailbox) (ident : String) :
    Int × List Mailbox :=
  (200, store.filter (fun m => ¬ (m.id = ident ∨ m.username = ident)))

/-- JS `a || b || c` on strings (the empty string is falsy). -/
def jsOrIdent (a b c : String) : String :=
  if a = "" then (if b = "" then c else b) else a

/-- `MailcowService.deleteMailbox(email)` over the mailbox store
(configured client assumed): any lookup failure yields the idempotent
"may already be deleted" success; otherwise delete by
`mailbox.id || mailbox.username || email`. -/
def mailcowDeleteMailbox (store : List Mailbox) (email : String) :
    MbRes × List Mailbox :=
  match mgetMailbox store email with
  | none =>
      ({ success := true,
         message := some ("Mailbox not found (may already be deleted): " ++ email),
         error := none, status := none }, store)
  | some m =>
    let mailboxId := jsOrIdent m.id m.username email
    let del := mdeleteMailboxCall store mailboxId
    if 200 ≤ del.1 ∧ del.1 < 300 then
      ({ success := true, message := some ("Mailbox deleted: " ++ email),
         error := none, status := none }, del.2)
    else
      ({ success := false, message := none,
         error := some "Mailbox deletion failed", status := some del.1 }, del.2)

/-! ### Small derived definitions and concrete fixtures

The fixtures below are the concrete oracle instantiations used by the
closed witness and counterexample theorems. -/

def countSogoCalls (tr : List BackendCall) : Nat :=
  tr.countP (fun e => match e with | .sogoDelete _ => true | _ => false)

def okApi : String → Except String ApiResult :=
  fun _ => .ok { success := true, message := none, error := none }

def okKeycloakDelete : String → Except String Unit := fun _ => .ok ()

def okSogo : String → Except String SogoDeleteResult :=
  fun _ => .ok { success := true, deleted := some true,
                 message := some "User alice@x.y deleted from SOGo", error := none }

def zeroRowsSogo : String → Except String SogoDeleteResult :=
  fun _ => .ok { success := true, deleted := some false,
                 message := some "User alice@x.y not found in SOGo", error := none }

def demoUser : KcUser :=
  { id := "u1", username := "alice", email := some "alice@x.y", enabled := true,
    createdTimestamp := some 1000 }

def decodeExpFix : String → Option Int := fun t => if t = "tokA" then some 2000 else none

def tokenStateFix : TokenState :=
  { session := [("alice", { accessToken := "tokA", idToken := none })],
    refreshStore := [("alice", "enc1")] }

def decryptFix : String → Option String := fun _ => some "rt"

def encryptFix : String → Option String := fun s => some ("E" ++ s)

def noRefresh : String → Option RefreshedTokens := fun _ => none

def verifyNone : String → VerifyRes := fun _ => { mbExists := false, err := some "nf" }

def principalStoreFix : List Principal := [{ name := "alice", emails := ["alice@x.y"] }]

def mailboxStoreFix : List Mailbox := [{ id := "7", username := "bob@x.y" }]

instance {ε α : Type} [DecidableEq ε] [DecidableEq α] : DecidableEq (Except ε α) :=
  fun x y =>
    match x, y with
    | .ok a, .ok b =>
      if h : a = b then isTrue (by rw [h])
      else isFalse (fun hh => h (Except.ok.inj hh))
    | .error a, .error b =>
      if h : a = b then isTrue (by rw [h])
      else isFalse (fun hh => h (Except.error.inj hh))
    | .ok _, .error _ => isFalse (fun hh => Except.noConfusion hh)
    | .error _, .ok _ => isFalse (fun hh => Except.noConfusion hh)

/-! ## Theorems -/

/-! ### Helper lemmas about the daemon steps -/

theorem sogoStep_success_eq_false (sogoDelete : String → Except String SogoDeleteResult)
    (email : String) : (sogoStep sogoDelete email).1.success = false := by
  unfold sogoStep
  cases sogoDelete email <;> rfl

theorem sogoStep_trace (sogoDelete : String → Except String SogoDeleteResult)
    (email : String) : (sogoStep sogoDelete email).2 = [.sogoDelete email] := by
  unfold sogoStep
  cases sogoDelete email <;> rfl

theorem stalwartStep_trace (f : String → Except String ApiResult) (u e : String) :
    (stalwartStep f u e).2 = [.stalwartDelete u] ∨
    (stalwartStep f u e).2 = [.stalwartDelete u, .stalwartDelete e] := by
  unfold stalwartStep
  cases f u with
  | error err => left; rfl
  | ok r =>
    cases hr : r.success
    · cases f e with
      | error err2 => right; simp [hr]
      | ok r2 => right; simp [hr]
    · left; simp [hr]

/-! ### Claim theorems -/

/-- Claim C10 counterexample: the explicitly supplied value "abc" is not a
non-positive integer (parseInt yields NaN, i.e. no integer at all) yet it
disables the reconciler; likewise the positive value "0.5" is truncated by
parseInt to 0 and disables it.  So not only non-positive values disable
the daemon. -/
theorem c10_counterexample :
    shouldRunOf (some "abc") = false ∧ maxSessionDurationMinOf (some "abc") = none ∧
    shouldRunOf (some "0.5") = false ∧ maxSessionDurationMinOf (some "0.5") = some 0 := by
  decide

/-- Claim C10 (amended): with `DEMO_MAX_SESSION_DURATION_MIN` absent (or
empty) the daemon defaults to 15 minutes, so `shouldRun()` is `true` and
the reconciler is enabled by default; an explicitly supplied value disables
it exactly when `parseInt(value, 10)` yields no integer (`NaN`) or a
non-positive integer. -/
theorem c10_default_policy :
    maxSessionDurationMinOf none = some 15 ∧ shouldRunOf none = true ∧
    ∀ s : String, shouldRunOf (some s) = false ↔
      (maxSessionDurationMinOf (some s) = none ∨
       ∃ n : Int, maxSessionDurationMinOf (some s) = some n ∧ n ≤ 0) := by
  refine ⟨by decide, by decide, fun s => ?_⟩
  unfold shouldRunOf
  cases h : maxSessionDurationMinOf (some s) with
  | none => simp
  | some n => simp

/-- Claim C4 (code bug): the eligibility rule the claim states is the
documented intent (spec section 3, the daemon comment "Check if user exists
in SOGo DB", and the existing `userExistsInSogo` method), but the code
calls the non-existent method `sogoUserService.userExists`; the TypeError
is caught and `shouldExpireUser` answers `false`, so a non-forced
reconciler tick never attempts deletion of ANY identity — including
enabled identities with a webmail-store record whose age exceeds the
policy, which the claim says must be deleted. -/
theorem c4_nonforced_tick_never_deletes (maxMin now : Int) (domain : String)
    (u : KcUser) :
    tickAttemptsDelete maxMin now domain u = false := by
  unfold tickAttemptsDelete shouldExpireUser sogoUserExistsCall
  cases hen : u.enabled <;> cases hct : u.createdTimestamp <;> simp [hen, hct]

/-- Claim C1 counterexample: with the Stalwart provider and oracles on
which the IdP deletion, the mail-backend deletion and even the
webmail-store deletion all succeed, `deleteUser` still reports overall
failure — refuting "success exactly when the IdP deletion and the
mail-backend deletion both succeeded". -/
theorem c1_counterexample :
    (deleteUser "stalwart" "x.y" demoUser okApi okKeycloakDelete okSogo).1.results.keycloak
        = some { success := true, error := none } ∧
    (deleteUser "stalwart" "x.y" demoUser okApi okKeycloakDelete okSogo).1.results.stalwart
        = some { success := true, message := none, error := none } ∧
    (deleteUser "stalwart" "x.y" demoUser okApi okKeycloakDelete okSogo).1.success = false := by
  decide

/-- Claim C1 (amended): the overall result of `deleteUser` is computed as
IdP success AND (mail-backend skipped or success) AND the webmail result
not being a failure; because the success check on the SOGo result reads the
miscased unbound variable `SOGoResult`, the recorded webmail result is
always a failure, so `deleteUser` reports overall failure for every
identity and every backend outcome. -/
theorem c1_overall_success_always_false (provider domain : String) (kcUser : KcUser)
    (stalwartApiDelete : String → Except String ApiResult)
    (keycloakDelete : String → Except String Unit)
    (sogoDelete : String → Except String SogoDeleteResult) :
    (deleteUser provider domain kcUser stalwartApiDelete keycloakDelete
      sogoDelete).1.success = false := by
  have h := sogoStep_success_eq_false sogoDelete (emailOf domain kcUser)
  simp [deleteUser, deleteUserAllSuccess, h]

/-- Claim C3 counterexample: on an identity whose webmail-store deletion by
email reports zero rows affected (`success:true, deleted:false`), the
daemon issues one single webmail-store delete call — not the retry under
the username that the claim asserts (which would make two calls). -/
theorem c3_counterexample :
    zeroRowsSogo "alice@x.y" = .ok { success := true, deleted := some false,
                                     message := some "User alice@x.y not found in SOGo",
                                     error := none } ∧
    countSogoCalls
      (deleteUser "stalwart" "x.y" demoUser okApi okKeycloakDelete zeroRowsSogo).2 = 1 ∧
    ¬ countSogoCalls
      (deleteUser "stalwart" "x.y" demoUser okApi okKeycloakDelete zeroRowsSogo).2 = 2 := by
  decide

/-- Claim C3 (amended): the username retry of the webmail-store deletion is
dead code — the branch guarding it evaluates the miscased unbound variable
`SOGoResult` and throws before it can run — so for every identity and every
oracle outcome `deleteUser` issues exactly one webmail-store delete call
(with the email), and zero retries. -/
theorem c3_single_sogo_call (provider domain : String) (kcUser : KcUser)
    (stalwartApiDelete : String → Except String ApiResult)
    (keycloakDelete : String → Except String Unit)
    (sogoDelete : String → Except String SogoDeleteResult) :
    countSogoCalls (deleteUser provider domain kcUser stalwartApiDelete keycloakDelete
      sogoDelete).2 = 1 := by
  by_cases hp : provider = "stalwart"
  · rcases stalwartStep_trace stalwartApiDelete kcUser.username (emailOf domain kcUser)
      with h | h <;>
      simp [deleteUser, hp, h, sogoStep_trace, countSogoCalls, List.countP_append,
        List.countP_cons]
  · simp [deleteUser, hp, sogoStep_trace, countSogoCalls, List.countP_append,
      List.countP_cons]

/-- Claim C5 counterexample: under the default provider (`mailcow`,
mail-service-config.js line 10), `deleteUser` issues only the Keycloak and
SOGo deletions — no mail-backend delete call at all — so the claimed
issuance of all three backend deletions in the fixed order fails for a
deleted identity there. -/
theorem c5_counterexample :
    (deleteUser "mailcow" "x.y" demoUser okApi okKeycloakDelete okSogo).2
      = [BackendCall.keycloakDelete "u1", BackendCall.sogoDelete "alice@x.y"] := by
  decide

/-- Claim C5 (amended): only when the configured mail provider is
`"stalwart"` are all three backend deletions issued, in the fixed order
mail backend (a nonempty block of Stalwart deletions) before the IdP
deletion before the webmail-store deletion; under every other provider
(including the default `mailcow`) `deleteUser` skips the mail-backend
deletion entirely and issues exactly the IdP deletion followed by the
webmail-store deletion. -/
theorem c5_provider_order (provider domain : String) (kcUser : KcUser)
    (stalwartApiDelete : String → Except String ApiResult)
    (keycloakDelete : String → Except String Unit)
    (sogoDelete : String → Except String SogoDeleteResult) :
    (provider = "stalwart" →
      ∃ sw : List BackendCall,
        (deleteUser provider domain kcUser stalwartApiDelete keycloakDelete sogoDelete).2
          = sw ++ [BackendCall.keycloakDelete kcUser.id,
                   BackendCall.sogoDelete (emailOf domain kcUser)] ∧
        sw ≠ [] ∧ (∀ e ∈ sw, ∃ ident, e = BackendCall.stalwartDelete ident)) ∧
    (provider ≠ "stalwart" →
      (deleteUser provider domain kcUser stalwartApiDelete keycloakDelete sogoDelete).2
        = [BackendCall.keycloakDelete kcUser.id,
           BackendCall.sogoDelete (emailOf domain kcUser)]) := by
  constructor
  · intro hp
    subst hp
    refine ⟨(stalwartStep stalwartApiDelete kcUser.username (emailOf domain kcUser)).2,
      ?_, ?_, ?_⟩
    · simp [deleteUser, sogoStep_trace]
    · rcases stalwartStep_trace stalwartApiDelete kcUser.username (emailOf domain kcUser)
        with h | h <;> simp [h]
    · intro e he
      rcases stalwartStep_trace stalwartApiDelete kcUser.username (emailOf domain kcUser)
        with h | h <;> rw [h] at he <;> simp at he
      · exact ⟨_, he⟩
      · rcases he with rfl | rfl
        · exact ⟨_, rfl⟩
        · exact ⟨_, rfl⟩
  · intro hp
    simp [deleteUser, hp, sogoStep_trace]

/-- Claim C5 witness: both branches of the amended statement at concrete
inputs — the Stalwart-provider trace decomposes with a leading nonempty
mail-backend block, and the mailcow-provider trace is exactly the IdP
deletion followed by the webmail-store deletion. -/
theorem c5_provider_order_witness :
    (∃ sw : List BackendCall,
      (deleteUser "stalwart" "x.y" demoUser okApi okKeycloakDelete okSogo).2
        = sw ++ [BackendCall.keycloakDelete "u1", BackendCall.sogoDelete "alice@x.y"] ∧
      sw ≠ [] ∧ (∀ e ∈ sw, ∃ ident, e = BackendCall.stalwartDelete ident)) ∧
    (deleteUser "mailcow" "x.y" demoUser okApi okKeycloakDelete okSogo).2
      = [BackendCall.keycloakDelete "u1", BackendCall.sogoDelete "alice@x.y"] :=
  ⟨(c5_provider_order "stalwart" "x.y" demoUser okApi okKeycloakDelete okSogo).1 rfl,
   (c5_provider_order "mailcow" "x.y" demoUser okApi okKeycloakDelete okSogo).2
     (by decide)⟩

/-- Claim C2 counterexample: with a cached access token inside the
60-second buffer (remaining 10 s), a refresh token on file and a failing
refresh-grant call, `getValidAccessToken` answers `null` — the original
access token `tokA` that was in the session is not returned. -/
theorem c2_counterexample :
    (getValidAccessToken decodeExpFix 1990 decryptFix encryptFix noRefresh "alice"
        tokenStateFix).token = none ∧
    (tokenStateFix.session.lookup "alice").map SessionEntry.accessToken = some "tokA" := by
  decide

/-- Claim C2 (amended): when the cached access token is expired or within
the 60-second buffer and the refresh-grant call fails, `getValidAccessToken`
does not throw (it is total and reports through its return value) but
returns `null`, discarding the original access token; the session and the
encrypted refresh-token store are left unchanged, and exactly the one
failed refresh-grant network call was made.  (The behavior the claim
describes — returning the original token alongside an error — belongs to
`getFreshAccessToken` in `keycloak-token-refresh.js`, not to
`TokenService.getValidAccessToken`.) -/
theorem c2_refresh_failure_returns_null
    (decodeExp : String → Option Int) (now : Int)
    (decryptRT encryptRT : String → Option String)
    (refreshGrant : String → Option RefreshedTokens)
    (username : String) (st : TokenState) (entry : SessionEntry)
    (enc rt : String)
    (hu : username ≠ "")
    (hsession : st.session.lookup username = some entry)
    (hne : entry.accessToken ≠ "")
    (hstale : isAccessTokenValid decodeExp now entry.accessToken = false)
    (hstore : st.refreshStore.lookup username = some enc)
    (hdec : decryptRT enc = some rt)
    (hfail : refreshGrant rt = none) :
    getValidAccessToken decodeExp now decryptRT encryptRT refreshGrant username st
      = ⟨none, st, [NetCall.refreshGrant rt]⟩ := by
  simp [getValidAccessToken, hu, hsession, hne, hstale, hstore, hdec, hfail]

/-- Claim C2 witness: the amended statement at the concrete fixture (token
expiring in 10 s, refresh grant failing). -/
theorem c2_witness :
    getValidAccessToken decodeExpFix 1990 decryptFix encryptFix noRefresh "alice"
        tokenStateFix
      = ⟨none, tokenStateFix, [NetCall.refreshGrant "rt"]⟩ :=
  c2_refresh_failure_returns_null decodeExpFix 1990 decryptFix encryptFix noRefresh
    "alice" tokenStateFix { accessToken := "tokA", idToken := none } "enc1" "rt"
    (by decide) (by decide) (by decide) (by decide) (by decide) (by decide) (by decide)

/-- Claim C7: when the cached access token has remaining validity strictly
greater than the 60-second buffer, `getValidAccessToken` returns it
unchanged, mutates neither the session nor the encrypted refresh-token
store, and makes no network call. -/
theorem c7_fresh_token_fast_path
    (decodeExp : String → Option Int) (now : Int)
    (decryptRT encryptRT : String → Option String)
    (refreshGrant : String → Option RefreshedTokens)
    (username : String) (st : TokenState) (entry : SessionEntry) (e : Int)
    (hu : username ≠ "")
    (hsession : st.session.lookup username = some entry)
    (hne : entry.accessToken ≠ "")
    (hexp : decodeExp entry.accessToken = some e)
    (hnow : 0 ≤ now)
    (hfresh : e - now > 60) :
    getValidAccessToken decodeExp now decryptRT encryptRT refreshGrant username st
      = ⟨some entry.accessToken, st, []⟩ := by
  have he0 : ¬ (e = 0) := by omega
  have hvalid : isAccessTokenValid decodeExp now entry.accessToken = true := by
    simp [isAccessTokenValid, hne, hexp, he0]
    omega
  simp [getValidAccessToken, hu, hsession, hne, hvalid]

/-- Claim C7 witness: the fast path at the concrete fixture (clock 1000,
token expiring at 2000: remaining 1000 s > 60 s). -/
theorem c7_witness :
    getValidAccessToken decodeExpFix 1000 decryptFix encryptFix noRefresh "alice"
        tokenStateFix
      = ⟨some "tokA", tokenStateFix, []⟩ :=
  c7_fresh_token_fast_path decodeExpFix 1000 decryptFix encryptFix noRefresh
    "alice" tokenStateFix { accessToken := "tokA", idToken := none } 2000
    (by decide) (by decide) (by decide) (by decide) (by decide) (by decide)

/-- Whatever the verification and creation oracles answer, the
verification phase of the pre-deploy protocol always polls the mailbox by
email. -/
theorem preDeployVerifyPhase_polls (v : String → VerifyRes) (cr : Except String Bool)
    (email kc : String) (a : Bool) (m : Option String) :
    PreDeployEv.verifyLookup email ∈ (preDeployVerifyPhase v cr email kc a m).2 := by
  unfold preDeployVerifyPhase
  rcases cr with e | created <;>
    by_cases h1 : (v email).mbExists = false ∧ kc ≠ "" <;>
      simp [h1] <;> split_ifs <;> simp [List.mem_append]

/-- Claim C6: once the protocol reaches the authenticated handshake, a
handshake failure of the connection-refused/timeout class returns a failed,
not-discovered result immediately, without any verification poll; failures
of the TLS-negotiation or credential-rejected classes do not short-circuit
and the verification poll is still attempted. -/
theorem c6_handshake_failure_classes
    (keycloakUrl realm clientId clientSecret smtpHost : String) (smtpPort : Int)
    (email pw uname atok msg : String)
    (verifyMailbox : String → VerifyRes) (createPrincipalReq : Except String Bool)
    (h1 : keycloakUrl ≠ "") (h2 : realm ≠ "") (h3 : clientId ≠ "")
    (h4 : clientSecret ≠ "") (h5 : smtpHost ≠ "") (h6 : smtpPort ≠ 0)
    (h7 : pw ≠ "") (h8 : uname ≠ "") (h9 : atok ≠ "") :
    (connRefusedClass msg = true →
      ((preDeployOidcUserWithAdminToken true keycloakUrl realm clientId clientSecret
          smtpHost smtpPort email (some pw) (.ok (200, uname)) (.ok (200, atok))
          (.error msg) verifyMailbox createPrincipalReq).1.success = false ∧
       (preDeployOidcUserWithAdminToken true keycloakUrl realm clientId clientSecret
          smtpHost smtpPort email (some pw) (.ok (200, uname)) (.ok (200, atok))
          (.error msg) verifyMailbox createPrincipalReq).1.discovered = false ∧
       (preDeployOidcUserWithAdminToken true keycloakUrl realm clientId clientSecret
          smtpHost smtpPort email (some pw) (.ok (200, uname)) (.ok (200, atok))
          (.error msg) verifyMailbox createPrincipalReq).1.connectionError = true ∧
       ∀ x, PreDeployEv.verifyLookup x ∉
         (preDeployOidcUserWithAdminToken true keycloakUrl realm clientId clientSecret
          smtpHost smtpPort email (some pw) (.ok (200, uname)) (.ok (200, atok))
          (.error msg) verifyMailbox createPrincipalReq).2)) ∧
    (connRefusedClass msg = false →
      (tlsClass msg = true ∨ credRejectedClass msg = true) →
      ∃ x, PreDeployEv.verifyLookup x ∈
        (preDeployOidcUserWithAdminToken true keycloakUrl realm clientId clientSecret
          smtpHost smtpPort email (some pw) (.ok (200, uname)) (.ok (200, atok))
          (.error msg) verifyMailbox createPrincipalReq).2) := by
  constructor
  · intro hconn
    simp [preDeployOidcUserWithAdminToken, h1, h2, h3, h4, h5, h6, h7, h8, h9, hconn]
  · intro hconn _hclass
    refine ⟨email, ?_⟩
    simp [preDeployOidcUserWithAdminToken, h1, h2, h3, h4, h5, h6, h7, h8, h9, hconn,
      List.mem_append, preDeployVerifyPhase_polls]

/-- Claim C6 witness: a connection-refused handshake error short-circuits
with no poll, while a TLS handshake error still reaches the poll, at
concrete oracles. -/
theorem c6_witness :
    ((preDeployOidcUserWithAdminToken true "k" "r" "c" "s" "smtp" 587 "a@x.y"
        (some "pw") (.ok (200, "alice")) (.ok (200, "tok")) (.error "ECONNREFUSED")
        verifyNone (.ok false)).1.success = false ∧
     (preDeployOidcUserWithAdminToken true "k" "r" "c" "s" "smtp" 587 "a@x.y"
        (some "pw") (.ok (200, "alice")) (.ok (200, "tok")) (.error "ECONNREFUSED")
        verifyNone (.ok false)).1.discovered = false ∧
     (preDeployOidcUserWithAdminToken true "k" "r" "c" "s" "smtp" 587 "a@x.y"
        (some "pw") (.ok (200, "alice")) (.ok (200, "tok")) (.error "ECONNREFUSED")
        verifyNone (.ok false)).1.connectionError = true ∧
     ∀ x, PreDeployEv.verifyLookup x ∉
       (preDeployOidcUserWithAdminToken true "k" "r" "c" "s" "smtp" 587 "a@x.y"
        (some "pw") (.ok (200, "alice")) (.ok (200, "tok")) (.error "ECONNREFUSED")
        verifyNone (.ok false)).2) ∧
    (∃ x, PreDeployEv.verifyLookup x ∈
       (preDeployOidcUserWithAdminToken true "k" "r" "c" "s" "smtp" 587 "a@x.y"
        (some "pw") (.ok (200, "alice")) (.ok (200, "tok"))
        (.error "TLS handshake failed") verifyNone (.ok false)).2) :=
  ⟨(c6_handshake_failure_classes "k" "r" "c" "s" "smtp" 587 "a@x.y" "pw" "alice"
      "tok" "ECONNREFUSED" verifyNone (.ok false) (by decide) (by decide) (by decide)
      (by decide) (by decide) (by decide) (by decide) (by decide) (by decide)).1
    (by decide),
   (c6_handshake_failure_classes "k" "r" "c" "s" "smtp" 587 "a@x.y" "pw" "alice"
      "tok" "TLS handshake failed" verifyNone (.ok false) (by decide) (by decide)
      (by decide) (by decide) (by decide) (by decide) (by decide) (by decide)
      (by decide)).2 (by decide) (Or.inl (by decide))⟩

/-- Helper: when the principal lookup answers 404, the Stalwart
`deleteMailbox` returns the idempotent "may already be deleted" success and
leaves the store untouched. -/
theorem stalwartDeleteMailbox_not_found (st : List Principal) (email : String)
    (h : st.find? (principalMatches email) = none) :
    stalwartDeleteMailbox st email
      = ({ success := true,
           message := some ("Principal not found (may already be deleted): " ++ email),
           error := none, status := none }, st) := by
  simp [stalwartDeleteMailbox, sgetPrincipal, h]

/-- Helper: when the mailbox lookup fails, the mailcow `deleteMailbox`
returns the idempotent "may already be deleted" success and leaves the
store untouched. -/
theorem mailcowDeleteMailbox_not_found (st : List Mailbox) (email : String)
    (h : mgetMailbox st email = none) :
    mailcowDeleteMailbox st email
      = ({ success := true,
           message := some ("Mailbox not found (may already be deleted): " ++ email),
           error := none, status := none }, st) := by
  simp [mailcowDeleteMailbox, h]

/-- Claim C9: for both mail-backend variants `deleteMailbox(email)` is
idempotent.  Stalwart: when the lookup resolves the email to a principal
(uniquely, by canonical name), the first call deletes it by its canonical
name and succeeds, and the second call succeeds with the "may already be
deleted" message because the lookup now answers 404.  Mailcow: when the
lookup finds the mailbox (uniquely), the first call deletes it by
`id || username || email` and succeeds, and the second call succeeds with
the "may already be deleted" message. -/
theorem c9_delete_mailbox_idempotent :
    (∀ (store : List Principal) (email : String) (p : Principal),
      store.find? (principalMatches email) = some p →
      p.name ≠ "" →
      (∀ q ∈ store, principalMatches email q = true → q.name = p.name) →
      ((stalwartDeleteMailbox store email).1.success = true ∧
       (stalwartDeleteMailbox store email).1.message
          = some ("Principal deleted: " ++ p.name) ∧
       (stalwartDeleteMailbox store email).2
          = store.filter (fun q => ¬ (q.name = p.name)) ∧
       (stalwartDeleteMailbox (stalwartDeleteMailbox store email).2 email).1.success
          = true ∧
       (stalwartDeleteMailbox (stalwartDeleteMailbox store email).2 email).1.message
          = some ("Principal not found (may already be deleted): " ++ email))) ∧
    (∀ (store : List Mailbox) (email : String) (m : Mailbox),
      mgetMailbox store email = some m →
      (∀ q ∈ store, q.username = email → q = m) →
      ((mailcowDeleteMailbox store email).1.success = true ∧
       (mailcowDeleteMailbox store email).1.message
          = some ("Mailbox deleted: " ++ email) ∧
       (mailcowDeleteMailbox (mailcowDeleteMailbox store email).2 email).1.success
          = true ∧
       (mailcowDeleteMailbox (mailcowDeleteMailbox store email).2 email).1.message
          = some ("Mailbox not found (may already be deleted): " ++ email))) := by
  constructor
  · intro store email p hfind hname huniq
    have hmem : p ∈ store := List.mem_of_find?_eq_some hfind
    have hany : store.any (fun q => q.name = p.name) = true := by
      rw [List.any_eq_true]
      exact ⟨p, hmem, by simp⟩
    have hfirst :
        stalwartDeleteMailbox store email
          = ({ success := true, message := some ("Principal deleted: " ++ p.name),
               error := none, status := none },
             store.filter (fun q => ¬ (q.name = p.name))) := by
      simp [stalwartDeleteMailbox, sgetPrincipal, hfind, hname, sdeletePrincipal, hany]
    have hnone : (store.filter (fun q => ¬ (q.name = p.name))).find?
        (principalMatches email) = none := by
      rw [List.find?_eq_none]
      intro q hq hqm
      rw [List.mem_filter] at hq
      obtain ⟨hqs, hqf⟩ := hq
      have hqn : q.name = p.name := huniq q hqs hqm
      simp [hqn] at hqf
    have hsecond := stalwartDeleteMailbox_not_found
      (store.filter (fun q => ¬ (q.name = p.name))) email hnone
    rw [hfirst]
    exact ⟨rfl, rfl, rfl, by rw [hsecond], by rw [hsecond]⟩
  · intro store email m hfind huniq
    have hmem : m ∈ store := List.mem_of_find?_eq_some hfind
    have husername : m.username = email := by
      have := List.find?_some hfind
      simpa using this
    have hident : m.id = jsOrIdent m.id m.username email
        ∨ m.username = jsOrIdent m.id m.username email := by
      unfold jsOrIdent
      split_ifs with hid hun
      · right; exact husername
      · right; rfl
      · left; rfl
    have hfirst :
        mailcowDeleteMailbox store email
          = ({ success := true, message := some ("Mailbox deleted: " ++ email),
               error := none, status := none },
             store.filter (fun q => ¬ (q.id = jsOrIdent m.id m.username email
               ∨ q.username = jsOrIdent m.id m.username email))) := by
      simp [mailcowDeleteMailbox, hfind, mdeleteMailboxCall]
    have hnone : mgetMailbox
        (store.filter (fun q => ¬ (q.id = jsOrIdent m.id m.username email
          ∨ q.username = jsOrIdent m.id m.username email))) email = none := by
      unfold mgetMailbox
      rw [List.find?_eq_none]
      intro q hq hqe
      rw [List.mem_filter] at hq
      obtain ⟨hqs, hqf⟩ := hq
      have hqm : q = m := huniq q hqs (by simpa using hqe)
      subst hqm
      simp at hqf
      rcases hident with h | h
      · exact hqf.1 h
      · exact hqf.2 h
    have hsecond := mailcowDeleteMailbox_not_found
      (store.filter (fun q => ¬ (q.id = jsOrIdent m.id m.username email
        ∨ q.username = jsOrIdent m.id m.username email))) email hnone
    rw [hfirst]
    exact ⟨rfl, rfl, by rw [hsecond], by rw [hsecond]⟩

/-- Claim C9 witness: the double deletion at concrete one-element stores
for both variants. -/
theorem c9_witness :
    ((stalwartDeleteMailbox principalStoreFix "alice@x.y").1.success = true ∧
     (stalwartDeleteMailbox principalStoreFix "alice@x.y").1.message
        = some ("Principal deleted: " ++ "alice") ∧
     (stalwartDeleteMailbox principalStoreFix "alice@x.y").2
        = principalStoreFix.filter (fun q => ¬ (q.name = "alice")) ∧
     (stalwartDeleteMailbox (stalwartDeleteMailbox principalStoreFix "alice@x.y").2
        "alice@x.y").1.success = true ∧
     (stalwartDeleteMailbox (stalwartDeleteMailbox principalStoreFix "alice@x.y").2
        "alice@x.y").1.message
        = some ("Principal not found (may already be deleted): " ++ "alice@x.y")) ∧
    ((mailcowDeleteMailbox mailboxStoreFix "bob@x.y").1.success = true ∧
     (mailcowDeleteMailbox mailboxStoreFix "bob@x.y").1.message
        = some ("Mailbox deleted: " ++ "bob@x.y") ∧
     (mailcowDeleteMailbox (mailcowDeleteMailbox mailboxStoreFix "bob@x.y").2
        "bob@x.y").1.success = true ∧
     (mailcowDeleteMailbox (mailcowDeleteMailbox mailboxStoreFix "bob@x.y").2
        "bob@x.y").1.message
        = some ("Mailbox not found (may already be deleted): " ++ "bob@x.y")) :=
  ⟨c9_delete_mailbox_idempotent.1 principalStoreFix "alice@x.y"
      { name := "alice", emails := ["alice@x.y"] } (by decide) (by decide)
      (by decide),
   c9_delete_mailbox_idempotent.2 mailboxStoreFix "bob@x.y"
      { id := "7", username := "bob@x.y" } (by decide) (by decide)⟩

/-! ### Hex and colon-splitting lemmas for the encryption claims -/

theorem hexDigitChar_lt_ne_colon (n : Nat) (h : n < 16) : hexDigitChar n ≠ ':' := by
  interval_cases n <;> decide

theorem bytesToHexChars_no_colon (bs : List Nat) :
    ∀ c ∈ bytesToHexChars bs, c ≠ ':' := by
  induction bs with
  | nil => intro c hc; simp [bytesToHexChars] at hc
  | cons b t ih =>
    intro c hc
    unfold bytesToHexChars byteToHexChars at hc
    simp at hc
    rcases hc with rfl | rfl | hc
    · exact hexDigitChar_lt_ne_colon _ (by omega)
    · exact hexDigitChar_lt_ne_colon _ (by omega)
    · exact ih c hc

theorem hexValOfCI_hexDigitChar (n : Nat) (h : n < 16) :
    hexValOfCI (hexDigitChar n) = some n := by
  interval_cases n <;> rfl

theorem hexBytesNode_bytesToHexChars (bs : List Nat) (hb : ∀ b ∈ bs, b < 256) :
    hexBytesNode (bytesToHexChars bs) = bs := by
  induction bs with
  | nil => rfl
  | cons b t ih =>
    have hblt : b < 256 := hb b (by simp)
    have hbt : ∀ x ∈ t, x < 256 := fun x hx => hb x (by simp [hx])
    have h1 : hexValOfCI (hexDigitChar (b / 16 % 16)) = some (b / 16 % 16) :=
      hexValOfCI_hexDigitChar _ (by omega)
    have h2 : hexValOfCI (hexDigitChar (b % 16)) = some (b % 16) :=
      hexValOfCI_hexDigitChar _ (by omega)
    unfold bytesToHexChars byteToHexChars
    simp only [List.cons_append, List.nil_append]
    unfold hexBytesNode
    rw [h1, h2, ih hbt]
    have hsum : 16 * (b / 16 % 16) + b % 16 = b := by omega
    simp [hsum]

theorem splitColon_no_colon (a : List Char) (ha : ∀ c ∈ a, c ≠ ':') :
    splitColon a = [a] := by
  induction a with
  | nil => rfl
  | cons c t ih =>
    have hc : c ≠ ':' := ha c (by simp)
    have ht : ∀ x ∈ t, x ≠ ':' := fun x hx => ha x (by simp [hx])
    simp only [splitColon]
    rw [ih ht]
    simp [hc]

theorem splitColon_append (a b : List Char) (ha : ∀ c ∈ a, c ≠ ':') :
    splitColon (a ++ ':' :: b) = a :: splitColon b := by
  induction a with
  | nil => simp [splitColon]
  | cons c t ih =>
    have hc : c ≠ ':' := ha c (by simp)
    have ht : ∀ x ∈ t, x ≠ ':' := fun x hx => ha x (by simp [hx])
    show splitColon (c :: (t ++ ':' :: b)) = (c :: t) :: splitColon b
    simp only [splitColon]
    rw [ih ht]
    simp [hc]

theorem encTrivial_correct : ∀ k iv m,
    decTrivial k iv (encTrivial k iv m).1 (encTrivial k iv m).2 = some m := by
  intro k iv m
  simp [encTrivial, decTrivial]

theorem encTrivial_auth : ∀ k iv ct tag m,
    decTrivial k iv ct tag = some m → encTrivial k iv m = (ct, tag) := by
  intro k iv ct tag m h
  unfold decTrivial at h
  split_ifs at h with ht
  cases h
  simp [encTrivial, ht]

theorem encTrivial_bytes : ∀ k iv m, (∀ b ∈ m, b < 256) →
    ((∀ b ∈ (encTrivial k iv m).1, b < 256) ∧ (∀ b ∈ (encTrivial k iv m).2, b < 256)) := by
  intro k iv m hm
  refine ⟨by simpa [encTrivial] using hm, ?_⟩
  intro b hb
  simp [encTrivial] at hb
  omega

/-- Claim C8 counterexample: for the empty refresh token the round trip
does not return the token: `_encryptRefreshToken` treats the falsy empty
plaintext as missing and returns `null` before any cipher work, so
decryption of the (missing) stored value yields `null`, not the empty
token. -/
theorem c8_counterexample :
    (encryptRefreshToken encTrivial 0 [1, 2] []).bind (decryptRefreshToken decTrivial 0)
      ≠ some [] := by
  decide

/-- Claim C8 (amended): over any authenticated cipher satisfying the
AES-256-GCM contract (decryption inverts encryption; decryption succeeds
only on genuine encryptions) and producing byte-valued output, (1) for
every NONEMPTY refresh token the stored `iv:authTag:ciphertext` string
decrypts back to the token, and (2) decryption never throws (the embedding
is total, matching the catch-all in the source) and is fail-closed:
whenever it returns a value, the input splits into exactly three
colon-separated fields whose lenient node hex decodings form a genuine
authenticated encryption of that value under the key — every tampered or
malformed input yields `null`. -/
theorem c8_encryption_roundtrip_fail_closed
    (enc : Nat → List Nat → List Nat → List Nat × List Nat)
    (dec : Nat → List Nat → List Nat → List Nat → Option (List Nat))
    (key : Nat)
    (hcorrect : ∀ k iv m, dec k iv (enc k iv m).1 (enc k iv m).2 = some m)
    (hauth : ∀ k iv ct tag m, dec k iv ct tag = some m → enc k iv m = (ct, tag))
    (hbytes : ∀ k iv m, (∀ b ∈ m, b < 256) →
      ((∀ b ∈ (enc k iv m).1, b < 256) ∧ (∀ b ∈ (enc k iv m).2, b < 256))) :
    (∀ (iv msg : List Nat), (∀ b ∈ iv, b < 256) → (∀ b ∈ msg, b < 256) → msg ≠ [] →
      ∃ s, encryptRefreshToken enc key iv msg = some s ∧
           decryptRefreshToken dec key s = some msg) ∧
    (∀ (s : String) (m : List Nat), decryptRefreshToken dec key s = some m →
      ∃ a b c, splitColon s.data = [a, b, c] ∧
        enc key (hexBytesNode a) m = (hexBytesNode c, hexBytesNode b)) := by
  constructor
  · intro iv msg hiv hmsg hne
    obtain ⟨hctb, htagb⟩ := hbytes key iv msg hmsg
    refine ⟨bytesToHex iv ++ ":" ++ bytesToHex (enc key iv msg).2 ++ ":"
      ++ bytesToHex (enc key iv msg).1, ?_, ?_⟩
    · unfold encryptRefreshToken
      rw [if_neg hne]
    · have hcolon : (":" : String).data = [':'] := rfl
      have hdata : (bytesToHex iv ++ ":" ++ bytesToHex (enc key iv msg).2 ++ ":"
          ++ bytesToHex (enc key iv msg).1).data
          = bytesToHexChars iv ++ ':' :: (bytesToHexChars (enc key iv msg).2 ++ ':'
            :: bytesToHexChars (enc key iv msg).1) := by
        simp [bytesToHex, String.data_append, hcolon, List.append_assoc]
      have hempty : ("" : String).data = [] := rfl
      have hsne : (bytesToHex iv ++ ":" ++ bytesToHex (enc key iv msg).2 ++ ":"
          ++ bytesToHex (enc key iv msg).1) ≠ "" := by
        intro he
        have hd := congrArg String.data he
        rw [hdata, hempty] at hd
        simp at hd
      unfold decryptRefreshToken
      rw [if_neg hsne, hdata,
        splitColon_append _ _ (bytesToHexChars_no_colon iv),
        splitColon_append _ _ (bytesToHexChars_no_colon (enc key iv msg).2),
        splitColon_no_colon _ (bytesToHexChars_no_colon (enc key iv msg).1)]
      simp only [hexBytesNode_bytesToHexChars iv hiv,
        hexBytesNode_bytesToHexChars _ htagb,
        hexBytesNode_bytesToHexChars _ hctb]
      exact hcorrect key iv msg
  · intro s m hdec
    unfold decryptRefreshToken at hdec
    by_cases hse : s = ""
    · rw [if_pos hse] at hdec
      exact absurd hdec (by simp)
    rw [if_neg hse] at hdec
    rcases hsp : splitColon s.data with _ | ⟨a, _ | ⟨b, _ | ⟨c, _ | ⟨d, rest⟩⟩⟩⟩
    · rw [hsp] at hdec; exact absurd hdec (by simp)
    · rw [hsp] at hdec; exact absurd hdec (by simp)
    · rw [hsp] at hdec; exact absurd hdec (by simp)
    · rw [hsp] at hdec
      have hdec2 : dec key (hexBytesNode a) (hexBytesNode c) (hexBytesNode b)
          = some m := hdec
      exact ⟨a, b, c, rfl, hauth key _ _ _ m hdec2⟩
    · rw [hsp] at hdec; exact absurd hdec (by simp)

/-- Claim C8 witness: the round trip at the trivial authenticated cipher,
a concrete two-byte initialization vector and the two-byte token `hi`. -/
theorem c8_witness :
    ∃ s, encryptRefreshToken encTrivial 0 [1, 2] [104, 105] = some s ∧
         decryptRefreshToken decTrivial 0 s = some [104, 105] :=
  (c8_encryption_roundtrip_fail_closed encTrivial decTrivial 0 encTrivial_correct
    encTrivial_auth encTrivial_bytes).1 [1, 2] [104, 105]
    (by decide) (by decide) (by decide)

end OidcSogoDemo
